import Mathlib

/-!
Verification of the opencat server core against its specification.

The definitions below are a shallow embedding of the Rust sources under
`crates/server/src`:
* the webhook delivery engine (`webhooks/delivery.rs`),
* the store adapters (`store/apple.rs`, `store/google.rs`, `store/types.rs`),
* the notification and receipt API handlers (`api/notifications.rs`,
  `api/receipts.rs`).

External library boundaries (serde_json, base64, HTTP transport, the SQLite
row store) are modelled by concrete executable Lean functions operating on
explicit values: JSON documents are an inductive `Json`, HTTP responses are a
status code plus a body, and row updates are pure functions on row records.
-/

namespace Opencat

/-! ## Webhook delivery engine (`crates/server/src/webhooks/delivery.rs`) -/

/-- Delivery status column values: `pending`, `failed`, `delivered`,
`dead_letter`. -/
inductive DStatus where
  | pending
  | failed
  | delivered
  | deadLetter
deriving DecidableEq, Repr

/-- One `webhook_deliveries` row, restricted to the columns the worker reads
and writes.  Timestamps are abstract instants (`Nat`). -/
structure DeliveryRow where
  status : DStatus
  attempts : Nat
  lastAttemptAt : Option Nat
  lastError : Option String
  nextRetryAt : Option Nat
deriving DecidableEq, Repr

/-- Function `next_retry_delay` (delivery.rs:102-106): the backoff table is
`[1, 5, 30, 120, 600, 3600]` and the index is `min(attempts, len - 1)`,
where `attempts` is the already-incremented attempt count. -/
def nextRetryDelay (attempts : Nat) : Nat :=
  let delays := [1, 5, 30, 120, 600, 3600]
  let index := min attempts (delays.length - 1)
  delays.getD index 0

/-- The row predicate of the worker's SELECT (delivery.rs:29-41): status in
(`pending`, `failed`), `next_retry_at` null or elapsed, endpoint active. -/
def selectable (now : Nat) (active : Bool) (d : DeliveryRow) : Bool :=
  (d.status == .pending || d.status == .failed)
    && (match d.nextRetryAt with
        | none => true
        | some t => t ≤ now)
    && active

/-- The UPDATE run on an HTTP 2xx response (delivery.rs:57-62): it sets
`status = 'delivered'`, `last_attempt_at` and `attempts`; it touches no other
column. -/
def applySuccess (now : Nat) (d : DeliveryRow) : DeliveryRow :=
  { d with status := .delivered, lastAttemptAt := some now, attempts := d.attempts + 1 }

/-- Function `mark_failed` (delivery.rs:77-99), called with the incremented attempt
count: `dead_letter` when `attempts >= 10`, else `failed` with
`next_retry_at = now + next_retry_delay(attempts)`; the UPDATE overwrites
status, attempts, `last_attempt_at`, `last_error` and `next_retry_at`. -/
def markFailed (now : Nat) (err : String) (d : DeliveryRow) : DeliveryRow :=
  let attempts := d.attempts + 1
  let status : DStatus := if attempts ≥ 10 then .deadLetter else .failed
  let nextRetry : Option Nat :=
    if status = .failed then some (now + nextRetryDelay attempts) else none
  { status := status, attempts := attempts, lastAttemptAt := some now,
    lastError := some err, nextRetryAt := nextRetry }

/-- One dispatch step of the worker on a selected row: the HTTP POST either
succeeds (2xx) or fails (non-2xx or transport error). -/
inductive DStep (now : Nat) (active : Bool) : DeliveryRow → DeliveryRow → Prop where
  | success (d : DeliveryRow) (h : selectable now active d = true) :
      DStep now active d (applySuccess now d)
  | failure (d : DeliveryRow) (err : String) (h : selectable now active d = true) :
      DStep now active d (markFailed now err d)

/-- Modelled from the spec: the initial `WebhookDelivery` row (`status =
pending`, `attempts = 0`, no timestamps, no error).  The reconciler that
inserts delivery rows is not implemented under `src/`; the spec (§3, §4.5)
fixes the initial state. -/
def initDelivery : DeliveryRow :=
  { status := .pending, attempts := 0, lastAttemptAt := none,
    lastError := none, nextRetryAt := none }

/-- Rows reachable from the initial row by worker dispatch steps, at
arbitrary poll instants and endpoint activity. -/
inductive ReachableDelivery : DeliveryRow → Prop where
  | init : ReachableDelivery initDelivery
  | step {d d' : DeliveryRow} {now : Nat} {active : Bool} :
      ReachableDelivery d → DStep now active d d' → ReachableDelivery d'

/-! ## JSON documents (boundary model of serde_json) -/

/-- JSON values as produced by serde_json.  Numbers are modelled as integers
(the notification fields the adapters read are integers; fractional numbers
are out of scope of this model). -/
inductive Json where
  | null
  | bool (b : Bool)
  | num (n : Int)
  | str (s : String)
  | arr (elems : List Json)
  | obj (fields : List (String × Json))
deriving Repr

/-- Indexing `value["key"]` of serde_json: `Null` when the value is not an
object or the key is absent. -/
def Json.get : Json → String → Json
  | .obj fields, key =>
      match fields.find? (fun f => f.1 == key) with
      | some f => f.2
      | none => .null
  | _, _ => .null

/-- Indexing `value[i]` of serde_json: `Null` when the value is not an array
or the index is out of range. -/
def Json.index : Json → Nat → Json
  | .arr elems, i => elems.getD i .null
  | _, _ => .null

/-- Accessor `as_str` of serde_json. -/
def Json.asStr : Json → Option String
  | .str s => some s
  | _ => none

/-- Accessor `as_i64` of serde_json. -/
def Json.asInt : Json → Option Int
  | .num n => some n
  | _ => none

/-- The double-quote character. -/
def quoteChar : Char := Char.ofNat 34

/-- The backslash character. -/
def backslashChar : Char := Char.ofNat 92

/-- The opening curly bracket. -/
def lbrace : Char := Char.ofNat 123

/-- The closing curly bracket. -/
def rbrace : Char := Char.ofNat 125

/-! ### base64url without padding (boundary model of the base64 crate's
`URL_SAFE_NO_PAD` engine: canonical decoding, rejecting invalid symbols,
a trailing group of one symbol, and non-zero trailing bits) -/

/-- Value of one base64url symbol. -/
def b64Val (c : Char) : Option Nat :=
  if 'A' ≤ c ∧ c ≤ 'Z' then some (c.toNat - 65)
  else if 'a' ≤ c ∧ c ≤ 'z' then some (c.toNat - 97 + 26)
  else if '0' ≤ c ∧ c ≤ '9' then some (c.toNat - 48 + 52)
  else if c = '-' then some 62
  else if c = '_' then some 63
  else none

/-- Reassemble 6-bit symbol values into bytes. -/
def b64Bytes : List Nat → Option (List Nat)
  | [] => some []
  | [_] => none
  | [a, b] =>
      if b % 16 = 0 then some [a * 4 + b / 16] else none
  | [a, b, c] =>
      if c % 4 = 0 then some [a * 4 + b / 16, (b % 16) * 16 + c / 4] else none
  | a :: b :: c :: d :: rest =>
      (b64Bytes rest).map (fun bs =>
        (a * 4 + b / 16) :: ((b % 16) * 16 + c / 4) :: ((c % 4) * 64 + d) :: bs)

/-- Decode an unpadded base64url character sequence to bytes. -/
def b64urlDecode (cs : List Char) : Option (List Nat) :=
  (cs.mapM b64Val).bind b64Bytes

/-- Symbol of one 6-bit value (encoding direction, used to build concrete
signed tokens). -/
def b64Char (n : Nat) : Char :=
  if n < 26 then Char.ofNat (65 + n)
  else if n < 52 then Char.ofNat (97 + (n - 26))
  else if n < 62 then Char.ofNat (48 + (n - 52))
  else if n = 62 then '-'
  else '_'

/-- Encode bytes as unpadded base64url. -/
def b64urlEncode : List Nat → List Char
  | [] => []
  | [x] => [b64Char (x / 4), b64Char ((x % 4) * 16)]
  | [x, y] => [b64Char (x / 4), b64Char ((x % 4) * 16 + y / 16), b64Char ((y % 16) * 4)]
  | x :: y :: z :: rest =>
      b64Char (x / 4) :: b64Char ((x % 4) * 16 + y / 16) ::
      b64Char ((y % 16) * 4 + z / 64) :: b64Char (z % 64) :: b64urlEncode rest

/-! ### JSON text parsing (boundary model of serde_json's `from_slice`) -/

/-- Bytes to characters.  The payloads in this development are ASCII;
non-ASCII bytes are rejected, which matches serde_json's rejection of
invalid UTF-8 (multi-byte UTF-8 sequences are not modelled). -/
def asciiChars (bs : List Nat) : Option (List Char) :=
  bs.mapM (fun b => if b < 128 then some (Char.ofNat b) else none)

/-- Bytes of an ASCII string. -/
def strBytes (s : String) : List Nat :=
  s.data.map Char.toNat

/-- JSON whitespace. -/
def isWs (c : Char) : Bool :=
  c = ' ' || c = '\t' || c = '\n' || c = '\r'

/-- Drop leading JSON whitespace. -/
def skipWs : List Char → List Char
  | [] => []
  | c :: rest => if isWs c then skipWs rest else c :: rest

/-- Unescape one string escape character. -/
def escChar (e : Char) : Option Char :=
  if e = quoteChar then some quoteChar
  else if e = backslashChar then some backslashChar
  else if e = '/' then some '/'
  else if e = 'n' then some '\n'
  else if e = 't' then some '\t'
  else if e = 'r' then some '\r'
  else if e = 'b' then some (Char.ofNat 8)
  else if e = 'f' then some (Char.ofNat 12)
  else none

/-- Read a JSON string body up to its closing quote (the opening quote is
already consumed); returns the string and the rest of the input. -/
def parseStringBody : List Char → Option (String × List Char)
  | [] => none
  | c :: rest =>
    if c = quoteChar then some ("", rest)
    else if c = backslashChar then
      match rest with
      | [] => none
      | e :: rest2 =>
        (escChar e).bind fun ec =>
          (parseStringBody rest2).map fun p => (⟨ec :: p.1.data⟩, p.2)
    else
      (parseStringBody rest).map fun p => (⟨c :: p.1.data⟩, p.2)

/-- Take a maximal run of decimal digits. -/
def takeDigits : List Char → (List Char × List Char)
  | [] => ([], [])
  | c :: rest =>
    if c.isDigit then
      let p := takeDigits rest
      (c :: p.1, p.2)
    else ([], c :: rest)

/-- Value of a run of decimal digits. -/
def digitsToNat (ds : List Char) : Nat :=
  ds.foldl (fun acc c => acc * 10 + (c.toNat - 48)) 0

mutual

/-- Read one JSON value; `fuel` bounds the nesting (the entry point supplies
more fuel than the input length). -/
def parseVal : Nat → List Char → Option (Json × List Char)
  | 0, _ => none
  | fuel + 1, cs =>
    match skipWs cs with
    | [] => none
    | c :: rest =>
      if c = lbrace then
        match skipWs rest with
        | [] => none
        | c2 :: rest2 =>
          if c2 = rbrace then some (.obj [], rest2)
          else (parseMembers fuel (c2 :: rest2)).map fun p => (.obj p.1, p.2)
      else if c = '[' then
        match skipWs rest with
        | [] => none
        | c2 :: rest2 =>
          if c2 = ']' then some (.arr [], rest2)
          else (parseElems fuel (c2 :: rest2)).map fun p => (.arr p.1, p.2)
      else if c = quoteChar then
        (parseStringBody rest).map fun p => (.str p.1, p.2)
      else if c = '-' then
        match takeDigits rest with
        | ([], _) => none
        | (ds, rest2) => some (.num (-(digitsToNat ds : Int)), rest2)
      else if c.isDigit then
        let p := takeDigits (c :: rest)
        some (.num (digitsToNat p.1), p.2)
      else if c = 't' then
        match rest with
        | 'r' :: 'u' :: 'e' :: rest2 => some (.bool true, rest2)
        | _ => none
      else if c = 'f' then
        match rest with
        | 'a' :: 'l' :: 's' :: 'e' :: rest2 => some (.bool false, rest2)
        | _ => none
      else if c = 'n' then
        match rest with
        | 'u' :: 'l' :: 'l' :: rest2 => some (.null, rest2)
        | _ => none
      else none

/-- Read the members of a JSON object after its opening bracket (the input is
positioned at the first key); consumes the closing bracket. -/
def parseMembers : Nat → List Char → Option (List (String × Json) × List Char)
  | 0, _ => none
  | fuel + 1, cs =>
    match skipWs cs with
    | [] => none
    | c :: rest =>
      if c = quoteChar then
        match parseStringBody rest with
        | none => none
        | some (key, rest2) =>
          match skipWs rest2 with
          | [] => none
          | c2 :: rest3 =>
            if c2 = ':' then
              match parseVal fuel rest3 with
              | none => none
              | some (v, rest4) =>
                match skipWs rest4 with
                | [] => none
                | c3 :: rest5 =>
                  if c3 = ',' then
                    (parseMembers fuel rest5).map fun p => ((key, v) :: p.1, p.2)
                  else if c3 = rbrace then some ([(key, v)], rest5)
                  else none
            else none
      else none

/-- Read the elements of a JSON array after its opening bracket (the input is
positioned at the first element); consumes the closing bracket. -/
def parseElems : Nat → List Char → Option (List Json × List Char)
  | 0, _ => none
  | fuel + 1, cs =>
    match parseVal fuel cs with
    | none => none
    | some (v, rest) =>
      match skipWs rest with
      | [] => none
      | c :: rest2 =>
        if c = ',' then
          (parseElems fuel rest2).map fun p => (v :: p.1, p.2)
        else if c = ']' then some ([v], rest2)
        else none

end

/-- Parse a byte sequence as one JSON document (serde_json `from_slice`). -/
def jsonParse (bs : List Nat) : Option Json :=
  match asciiChars bs with
  | none => none
  | some cs =>
    match parseVal (cs.length + 1) cs with
    | some (j, rest) => if skipWs rest = [] then some j else none
    | none => none

/-! ## Store adapter types (`crates/server/src/store/types.rs`) -/

/-- Internal transaction status (`TransactionStatus` in types.rs). -/
inductive TransactionStatus where
  | active
  | expired
  | refunded
  | gracePeriod
  | billingRetry
deriving DecidableEq, Repr

/-- Vendor tag (`Store` in types.rs). -/
inductive StoreVendor where
  | apple
  | google
deriving DecidableEq, Repr

/-- Normalized transaction snapshot (`VerifiedTransaction` in types.rs). -/
structure VerifiedTransaction where
  store_transaction_id : String
  product_id : String
  purchase_date : String
  expiration_date : Option String
  status : TransactionStatus
  store : StoreVendor
deriving DecidableEq, Repr

/-- Normalized event (`TransactionEvent` in types.rs). -/
structure TransactionEvent where
  event_type : String
  transaction : VerifiedTransaction
deriving DecidableEq, Repr

/-- A vendor HTTP response: status code and raw body. -/
structure HttpResponse where
  status : Nat
  body : List Nat
deriving Repr

/-- Test `status().is_success()` of reqwest: a 2xx status. -/
def isSuccessStatus (s : Nat) : Bool :=
  200 ≤ s && s < 300

/-- Split a character sequence on a separator, Rust `str::split` semantics:
the result always has one more segment than there are separators. -/
def splitOnChar (sep : Char) : List Char → List (List Char)
  | [] => [[]]
  | c :: rest =>
    if c = sep then [] :: splitOnChar sep rest
    else
      match splitOnChar sep rest with
      | [] => [[c]]
      | seg :: segs => (c :: seg) :: segs

/-! ## Apple adapter (`crates/server/src/store/apple.rs`) -/

/-- The signed-token decode step, inlined identically at apple.rs:90-96 and
apple.rs:118-124: split on '.', require exactly 3 segments (else the
`Invalid JWS format` error), base64url-decode the middle segment without
padding, parse the decoded bytes as JSON; decode and parse failures
propagate as errors. -/
def decodeSignedPayload (s : String) : Except String Json :=
  match splitOnChar '.' s.data with
  | [_, p, _] =>
    match b64urlDecode p with
    | none => .error "base64 decode error"
    | some bs =>
      match jsonParse bs with
      | none => .error "json parse error"
      | some j => .ok j
  | _ => .error "Invalid JWS format"

/-- Build the `VerifiedTransaction` from a decoded Apple transaction payload
(apple.rs:98-105 and apple.rs:147-157): `unwrap_or_default` on the string
fields, and the status is the constant `Active`. -/
def appleTxFromJson (d : Json) : VerifiedTransaction :=
  { store_transaction_id := ((d.get "transactionId").asStr).getD ""
    product_id := ((d.get "productId").asStr).getD ""
    purchase_date := ((d.get "purchaseDate").asStr).getD ""
    expiration_date := (d.get "expiresDate").asStr
    status := .active
    store := .apple }

/-- Apple `verify_purchase` (apple.rs:71-106).  Credential signing and the
HTTP round trip are the external boundary: the vendor's response is the
`resp` argument (the transaction id only selects the request URL and does
not affect the result fields). -/
def appleVerifyPurchase (resp : HttpResponse) : Except String VerifiedTransaction :=
  if ¬ isSuccessStatus resp.status then .error "Apple API error"
  else
    match jsonParse resp.body with
    | none => .error "response body parse error"
    | some body =>
      match (body.get "signedTransactionInfo").asStr with
      | none => .error "Missing signedTransactionInfo"
      | some signedTransaction =>
        match decodeSignedPayload signedTransaction with
        | .error e => .error e
        | .ok decoded => .ok (appleTxFromJson decoded)

/-- Apple notification-code mapping (apple.rs:131-139); unmatched codes pass
through unchanged. -/
def appleEventType (nt : String) : String :=
  match nt with
  | "DID_RENEW" => "RENEWAL"
  | "EXPIRED" => "EXPIRATION"
  | "DID_FAIL_TO_RENEW" => "BILLING_ISSUE_DETECTED"
  | "REFUND" => "REFUND"
  | "SUBSCRIBED" => "INITIAL_PURCHASE"
  | "INITIAL_BUY" => "INITIAL_PURCHASE"
  | "DID_CHANGE_RENEWAL_STATUS" => "CANCELLATION"
  | other => other

/-- The tail of Apple `process_notification` after the outer signed payload
has been decoded (apple.rs:126-161): an embedded three-segment transaction
token yields one event whose kind is the mapped `notificationType`
(`unwrap_or("UNKNOWN")` on a missing type); no embedded token string, or one
whose segment count is not 3, yields the empty list; a decode or parse
failure of an embedded three-segment token is an error. -/
def appleProcessDecoded (decoded : Json) : Except String (List TransactionEvent) :=
  match ((decoded.get "data").get "signedTransactionInfo").asStr with
  | some signedTx =>
    match splitOnChar '.' signedTx.data with
    | [_, p, _] =>
      match b64urlDecode p with
      | none => .error "base64 decode error"
      | some bs =>
        match jsonParse bs with
        | none => .error "json parse error"
        | some txDecoded =>
            .ok [⟨appleEventType (((decoded.get "notificationType").asStr).getD "UNKNOWN"),
                  appleTxFromJson txDecoded⟩]
    | _ => .ok []
  | none => .ok []

/-- Apple `process_notification` (apple.rs:112-162) on the raw request
body. -/
def appleProcessNotification (payload : List Nat) : Except String (List TransactionEvent) :=
  match jsonParse payload with
  | none => .error "body parse error"
  | some body =>
    match (body.get "signedPayload").asStr with
    | none => .error "Missing signedPayload"
    | some signedPayload =>
      match decodeSignedPayload signedPayload with
      | .error e => .error e
      | .ok decoded => appleProcessDecoded decoded

/-! ## Google adapter (`crates/server/src/store/google.rs`) -/

/-- Google subscription-state mapping (google.rs:87-93); every unmatched
value falls back to `Active`. -/
def googleSubscriptionStatus (s : String) : TransactionStatus :=
  match s with
  | "SUBSCRIPTION_STATE_ACTIVE" => .active
  | "SUBSCRIPTION_STATE_EXPIRED" => .expired
  | "SUBSCRIPTION_STATE_GRACE_PERIOD" => .gracePeriod
  | "SUBSCRIPTION_STATE_ON_HOLD" => .billingRetry
  | _ => .active

/-- Build the `VerifiedTransaction` from a parsed Google subscription
resource (google.rs:87-102); a missing `subscriptionState` reads as `""`
via `unwrap_or("")`. -/
def googleVerifyBody (body : Json) (purchaseToken : String) : VerifiedTransaction :=
  { store_transaction_id := purchaseToken
    product_id := ((((body.get "lineItems").index 0).get "productId").asStr).getD ""
    purchase_date := ((body.get "startTime").asStr).getD ""
    expiration_date := (((body.get "lineItems").index 0).get "expiryTime").asStr
    status := googleSubscriptionStatus (((body.get "subscriptionState").asStr).getD "")
    store := .google }

/-- Google `verify_purchase` (google.rs:68-103); OAuth credential minting and
the HTTP round trip are the external boundary, the vendor's response is
`resp`. -/
def googleVerifyPurchase (resp : HttpResponse) (purchaseToken : String) :
    Except String VerifiedTransaction :=
  if ¬ isSuccessStatus resp.status then .error "Google API error"
  else
    match jsonParse resp.body with
    | none => .error "response body parse error"
    | some body => .ok (googleVerifyBody body purchaseToken)

/-- Google notification-code mapping (google.rs:120-131); every unmatched
code maps to `UNKNOWN`. -/
def googleEventType (n : Int) : String :=
  match n with
  | 1 => "SUBSCRIPTION_RECOVERED"
  | 2 => "RENEWAL"
  | 3 => "CANCELLATION"
  | 4 => "INITIAL_PURCHASE"
  | 5 => "ACCOUNT_HOLD"
  | 6 => "GRACE_PERIOD"
  | 7 => "RESTARTED"
  | 12 => "REFUND"
  | 13 => "EXPIRATION"
  | _ => "UNKNOWN"

/-- The tail of Google `process_notification` on the parsed body
(google.rs:112-138): a missing `purchaseToken` is an error; otherwise the
adapter performs a follow-up `verify_purchase` (its round trip is the
`verifyResp` argument) and emits exactly one event. -/
def googleProcessBody (verifyResp : HttpResponse) (body : Json) :
    Except String (List TransactionEvent) :=
  match ((body.get "subscriptionNotification").get "purchaseToken").asStr with
  | none => .error "Missing purchaseToken"
  | some purchaseToken =>
    match googleVerifyPurchase verifyResp purchaseToken with
    | .error e => .error e
    | .ok transaction =>
        .ok [⟨googleEventType
                ((((body.get "subscriptionNotification").get "notificationType").asInt).getD 0),
              transaction⟩]

/-- Google `process_notification` (google.rs:109-139) on the raw request
body. -/
def googleProcessNotification (verifyResp : HttpResponse) (payload : List Nat) :
    Except String (List TransactionEvent) :=
  match jsonParse payload with
  | none => .error "body parse error"
  | some body => googleProcessBody verifyResp body

/-! ## Notification reconciler route (`crates/server/src/api/notifications.rs`) -/

/-- One `events` table row as written by the notification handlers.  The
`payload` column stores the re-serialized request body; it is kept here as
the parsed JSON value. -/
structure EventRow where
  id : String
  subscriber_id : String
  event_type : String
  payload : Json
  created_at : String

/-- The database rows the notification path reads and writes. -/
structure DbState where
  subscribers : List String
  events : List EventRow
  deliveries : List DeliveryRow

/-- HTTP outcome of a handler. -/
inductive HandlerStatus where
  | ok
  | badRequest
deriving DecidableEq, Repr

/-- Handler `apple_notification` (api/notifications.rs:5-33): parse the body
as JSON (400 on failure), then best-effort insert a single raw
`APPLE_NOTIFICATION` event row whose subscriber is the first row of the
`subscribers` table (the `INSERT ... SELECT ... FROM subscribers LIMIT 1`
inserts nothing when that table is empty).  The handler invokes no store
adapter and writes no `webhook_deliveries` row. -/
def appleNotificationHandler (db : DbState) (body : List Nat)
    (eventId now : String) : HandlerStatus × DbState :=
  match jsonParse body with
  | none => (.badRequest, db)
  | some payload =>
    match db.subscribers.head? with
    | some sid =>
        (.ok, { db with
                  events := db.events ++ [⟨eventId, sid, "APPLE_NOTIFICATION", payload, now⟩] })
    | none => (.ok, db)

/-! ## Receipt submission route (`crates/server/src/api/receipts.rs`) -/

/-- Request body of `submit_receipt` (api/receipts.rs:7-14). -/
structure SubmitReceipt where
  app_id : String
  app_user_id : String
  store : String
  receipt_data : String
  product_id : String
deriving DecidableEq, Repr

/-- One `transactions` row as inserted by `submit_receipt`
(api/receipts.rs:48-63). -/
structure TransactionRow where
  id : String
  subscriber_id : String
  product_id : String
  store : String
  store_transaction_id : String
  purchase_date : String
  status : String
  raw_receipt : String
  created_at : String
  updated_at : String
deriving DecidableEq, Repr

/-- A store adapter invocation; the receipt handler makes none. -/
inductive AdapterCall where
  | verifyPurchase (store : String) (receipt : String)
deriving DecidableEq, Repr

/-- Handler `submit_receipt` (api/receipts.rs:16-72): ensure a subscriber row
(`INSERT OR IGNORE` then `SELECT`, modelled by an existing subscriber id
winning over the freshly generated one), then insert a transaction row with
status `'active'`, the synthetic `store_transaction_id`
`"pending_verification_" ++ txId`, and the submitted `receipt_data` stored
verbatim in `raw_receipt`.  The second component lists the store adapter
calls the handler performs: none (the code defers verification to a later
phase). -/
def submitReceipt (input : SubmitReceipt) (existingSubscriber : Option String)
    (freshSubscriberId txId now : String) : TransactionRow × List AdapterCall :=
  let subscriberId := existingSubscriber.getD freshSubscriberId
  ({ id := txId
     subscriber_id := subscriberId
     product_id := input.product_id
     store := input.store
     store_transaction_id := "pending_verification_" ++ txId
     purchase_date := now
     status := "active"
     raw_receipt := input.receipt_data
     created_at := now
     updated_at := now }, [])

/-! ## Concrete inputs used by witnesses and counterexamples -/

/-- Inner Apple transaction claims with `transactionId = T1`. -/
def exTxJsonText : String :=
  "\x7b\"transactionId\":\"T1\",\"productId\":\"P1\"\x7d"

/-- A three-segment signed transaction token carrying `exTxJsonText`. -/
def exTxToken : String :=
  "h." ++ String.mk (b64urlEncode (strBytes exTxJsonText)) ++ ".s"

/-- Outer Apple renewal notification claims embedding `exTxToken`. -/
def exNotifText : String :=
  "\x7b\"notificationType\":\"DID_RENEW\",\"data\":\x7b\"signedTransactionInfo\":\""
    ++ exTxToken ++ "\"\x7d\x7d"

/-- The signed payload token carrying `exNotifText`. -/
def exSignedPayload : String :=
  "h." ++ String.mk (b64urlEncode (strBytes exNotifText)) ++ ".s"

/-- A complete Apple renewal notification request body. -/
def renewalBody : List Nat :=
  strBytes ("\x7b\"signedPayload\":\"" ++ exSignedPayload ++ "\"\x7d")

/-- The expected normalized transaction of `renewalBody`. -/
def exRenewalTx : VerifiedTransaction :=
  { store_transaction_id := "T1", product_id := "P1", purchase_date := "",
    expiration_date := none, status := .active, store := .apple }

/-- A database with one subscriber, no events and no deliveries. -/
def exampleDb : DbState :=
  { subscribers := ["sub1"], events := [], deliveries := [] }

/-- A decoded Apple renewal notification document. -/
def exDecodedNotif : Json :=
  Json.obj [("notificationType", Json.str "DID_RENEW"),
            ("data", Json.obj [("signedTransactionInfo", Json.str "a.e30.b")])]

/-- A parsed Google renewal notification document. -/
def exGoogleNotifBody : Json :=
  Json.obj [("subscriptionNotification",
             Json.obj [("notificationType", Json.num 2), ("purchaseToken", Json.str "tok")])]

/-- A raw Google renewal notification body. -/
def gOkBody : List Nat :=
  strBytes "\x7b\"subscriptionNotification\":\x7b\"notificationType\":2,\"purchaseToken\":\"tok\"\x7d\x7d"

/-- A delivery row after one failure and a subsequent successful dispatch. -/
def exDeliveredStale : DeliveryRow :=
  applySuccess 4000 (markFailed 0 "HTTP 500" initDelivery)

/-- The delivery row after `n` consecutive failed dispatches, each polled
after the scheduled retry time has elapsed. -/
def failChain : Nat → DeliveryRow
  | 0 => initDelivery
  | k + 1 => markFailed (5000 * (k + 1)) "HTTP 500" (failChain k)

deriving instance DecidableEq for Except

/-! ## Theorems -/

/-- Attempt-count bookkeeping maintained by the worker's updates on rows
reachable from the initial state. -/
theorem reachable_attempts_inv {d : DeliveryRow} (h : ReachableDelivery d) :
    (d.status = .pending → d.attempts = 0) ∧
    (d.status = .failed → 1 ≤ d.attempts ∧ d.attempts ≤ 9) ∧
    (d.status = .deadLetter → d.attempts = 10) := by
  induction h with
  | init =>
      exact ⟨fun _ => rfl, fun h => absurd h (by decide), fun h => absurd h (by decide)⟩
  | step hr hstep ih =>
      rename_i e e' now active
      cases hstep with
      | success hsel =>
          exact ⟨fun h => absurd h (by simp [applySuccess]),
                 fun h => absurd h (by simp [applySuccess]),
                 fun h => absurd h (by simp [applySuccess])⟩
      | failure err hsel =>
          have hsel' := hsel
          simp only [selectable, Bool.and_eq_true, Bool.or_eq_true, beq_iff_eq] at hsel'
          obtain ⟨⟨hst, _⟩, _⟩ := hsel'
          have ha : e.attempts ≤ 9 := by
            rcases hst with h | h
            · simp [ih.1 h]
            · exact (ih.2.1 h).2
          by_cases hc : e.attempts + 1 ≥ 10
          · refine ⟨?_, ?_, ?_⟩ <;> simp [markFailed, hc]
            omega
          · refine ⟨?_, ?_, ?_⟩ <;> simp [markFailed, hc]
            omega

/-- C1: the backoff table of `next_retry_delay` is `[1, 5, 30, 120, 600,
3600]`, but the index is `min(attempts, 5)` where `attempts` is the 1-based
count of the attempt that just failed, so attempt n schedules
`table[min(n, 5)]` seconds: the first failure schedules its retry 5 seconds
later (the table's first entry, the specified 1 second, is unreachable),
attempts 2, 3, 4 schedule 30, 120 and 600 seconds, and every attempt from
the fifth on schedules 3600 seconds; `mark_failed` on the first failure of a
fresh delivery therefore sets `next_retry_at = now + 5`. -/
theorem retry_delay_table_offset :
    nextRetryDelay 1 = 5 ∧ nextRetryDelay 2 = 30 ∧ nextRetryDelay 3 = 120 ∧
    nextRetryDelay 4 = 600 ∧ nextRetryDelay 5 = 3600 ∧ nextRetryDelay 6 = 3600 ∧
    nextRetryDelay 9 = 3600 ∧
    (markFailed 0 "HTTP 500" initDelivery).nextRetryAt = some 5 := by
  decide

set_option maxRecDepth 16000 in
/-- C2: the Apple notification route is a stub.  On a complete, valid Apple
renewal notification whose nested signed transaction carries
`transactionId = T1`, and with one subscriber and an active endpoint
registered, the handler returns 200 OK but stores a single raw
`APPLE_NOTIFICATION` event row and creates no `WebhookDelivery` row; it
never invokes `process_notification`, although `process_notification` on the
same body yields exactly the RENEWAL event the specification requires. -/
theorem apple_notification_route_is_stub :
    (appleNotificationHandler exampleDb renewalBody "ev1" "t0").1 = .ok ∧
    (appleNotificationHandler exampleDb renewalBody "ev1" "t0").2.deliveries = [] ∧
    ((appleNotificationHandler exampleDb renewalBody "ev1" "t0").2.events.map
        (fun e => e.event_type)) = ["APPLE_NOTIFICATION"] ∧
    appleProcessNotification renewalBody = .ok [⟨"RENEWAL", exRenewalTx⟩] := by
  decide

/-- C3 counterexample: a delivery that failed once (with `next_retry_at`
scheduled) and then succeeds is reachable, ends in status `delivered`, and
still carries `next_retry_at = some 5`: the success UPDATE does not clear
the retry fields, so not every `delivered` row has a null `next_retry_at`. -/
theorem delivered_with_stale_next_retry :
    ReachableDelivery exDeliveredStale ∧
    exDeliveredStale.status = .delivered ∧
    exDeliveredStale.nextRetryAt = some 5 := by
  refine ⟨?_, by decide, by decide⟩
  have s1 : DStep 0 true initDelivery (markFailed 0 "HTTP 500" initDelivery) :=
    .failure initDelivery "HTTP 500" (by decide)
  have s2 : DStep 4000 true (markFailed 0 "HTTP 500" initDelivery) exDeliveredStale :=
    .success (markFailed 0 "HTTP 500" initDelivery) (by decide)
  exact .step (.step .init s1) s2

/-- C3 amended: on an HTTP 2xx response the update sets `status` to
`delivered`, increments `attempts` and sets `last_attempt_at`, but leaves
`last_error` and `next_retry_at` exactly as they were — the retry fields are
not cleared, so a delivery delivered after an earlier failure retains its
stale `next_retry_at`. -/
theorem success_update_fields (now : Nat) (d : DeliveryRow) :
    applySuccess now d =
      { status := .delivered, attempts := d.attempts + 1, lastAttemptAt := some now,
        lastError := d.lastError, nextRetryAt := d.nextRetryAt } :=
  rfl

/-- C3 witness for `success_update_fields` at a concrete row that had failed
once before succeeding. -/
theorem success_update_fields_witness :
    applySuccess 7 (markFailed 0 "HTTP 500" initDelivery) =
      { status := .delivered, attempts := 2, lastAttemptAt := some 7,
        lastError := some "HTTP 500", nextRetryAt := some 5 } :=
  success_update_fields 7 (markFailed 0 "HTTP 500" initDelivery)

/-- C4: for every `submit_receipt` request, the inserted transaction row has
status `'active'` and the synthetic store transaction id
`pending_verification_<txId>`, the submitted receipt data is stored verbatim
in `raw_receipt`, and the handler performs no store adapter call — the
receipt is never verified against a vendor, for any store value and any
receipt content. -/
theorem submit_receipt_unverified_active (input : SubmitReceipt)
    (existingSubscriber : Option String) (freshSubscriberId txId now : String) :
    (submitReceipt input existingSubscriber freshSubscriberId txId now).1.status = "active" ∧
    (submitReceipt input existingSubscriber freshSubscriberId txId now).1.store_transaction_id
      = "pending_verification_" ++ txId ∧
    (submitReceipt input existingSubscriber freshSubscriberId txId now).1.raw_receipt
      = input.receipt_data ∧
    (submitReceipt input existingSubscriber freshSubscriberId txId now).2 = [] :=
  ⟨rfl, rfl, rfl, rfl⟩

/-- C4 witness for `submit_receipt_unverified_active` at a concrete
request. -/
theorem submit_receipt_unverified_active_witness :
    (submitReceipt ⟨"app1", "user1", "apple", "RECEIPT", "prod1"⟩ none "s1" "t1" "n0").1.status
      = "active" ∧
    (submitReceipt ⟨"app1", "user1", "apple", "RECEIPT", "prod1"⟩ none "s1" "t1"
        "n0").1.store_transaction_id = "pending_verification_" ++ "t1" ∧
    (submitReceipt ⟨"app1", "user1", "apple", "RECEIPT", "prod1"⟩ none "s1" "t1"
        "n0").1.raw_receipt
      = (⟨"app1", "user1", "apple", "RECEIPT", "prod1"⟩ : SubmitReceipt).receipt_data ∧
    (submitReceipt ⟨"app1", "user1", "apple", "RECEIPT", "prod1"⟩ none "s1" "t1" "n0").2 = [] :=
  submit_receipt_unverified_active ⟨"app1", "user1", "apple", "RECEIPT", "prod1"⟩
    none "s1" "t1" "n0"

/-- C5 counterexample: a well-formed Google notification from which no
transaction payload is recoverable (no `purchaseToken`) makes the Google
adapter's `process_notification` return an error, not an empty event
sequence. -/
theorem google_notification_error_on_missing_token :
    googleProcessNotification ⟨200, []⟩ (strBytes "\x7b\"version\":\"1.0\"\x7d")
      = .error "Missing purchaseToken" ∧
    googleProcessNotification ⟨200, []⟩ (strBytes "\x7b\"version\":\"1.0\"\x7d")
      ≠ .ok [] := by
  decide

/-- C5 amended: the empty-sequence-on-missing-payload behaviour holds for the
Apple adapter only (a decoded notification with no embedded transaction
token string, or with an embedded token that is not three segments, yields
`ok []`); the Google adapter instead fails with an error when no
`purchaseToken` is recoverable, and every successful Google
`process_notification` emits exactly one event — it never returns an empty
sequence. -/
theorem empty_events_policy :
    (∀ d : Json, ((d.get "data").get "signedTransactionInfo").asStr = none →
        appleProcessDecoded d = .ok []) ∧
    (∀ (d : Json) (tx : String),
        ((d.get "data").get "signedTransactionInfo").asStr = some tx →
        (splitOnChar '.' tx.data).length ≠ 3 →
        appleProcessDecoded d = .ok []) ∧
    (∀ (resp : HttpResponse) (body : Json),
        ((body.get "subscriptionNotification").get "purchaseToken").asStr = none →
        googleProcessBody resp body = .error "Missing purchaseToken") ∧
    (∀ (resp : HttpResponse) (payload : List Nat) (evs : List TransactionEvent),
        googleProcessNotification resp payload = .ok evs → evs.length = 1) := by
  refine ⟨?_, ?_, ?_, ?_⟩
  · intro d h
    simp only [appleProcessDecoded, h]
  · intro d tx h hlen
    simp only [appleProcessDecoded, h]
    rcases hsp : splitOnChar '.' tx.data with _ | ⟨a, _ | ⟨b, _ | ⟨c, _ | ⟨e, t⟩⟩⟩⟩ <;>
      simp_all
  · intro resp body h
    simp only [googleProcessBody, h]
  · intro resp payload evs h
    unfold googleProcessNotification at h
    split at h
    · simp at h
    · unfold googleProcessBody at h
      split at h
      · simp at h
      · split at h
        · simp at h
        · simp only [Except.ok.injEq] at h
          subst h
          rfl

/-- C5 witness for `empty_events_policy`: concrete instances of each part. -/
theorem empty_events_policy_witness :
    appleProcessDecoded .null = .ok [] ∧
    appleProcessDecoded
      (Json.obj [("data", Json.obj [("signedTransactionInfo", Json.str "ab")])]) = .ok [] ∧
    googleProcessBody ⟨200, []⟩ (Json.obj []) = .error "Missing purchaseToken" ∧
    ([⟨"RENEWAL", ⟨"tok", "", "", none, .active, .google⟩⟩] : List TransactionEvent).length = 1 :=
  ⟨empty_events_policy.1 .null rfl,
   empty_events_policy.2.1 _ "ab" rfl (by decide),
   empty_events_policy.2.2.1 ⟨200, []⟩ (Json.obj []) rfl,
   empty_events_policy.2.2.2 ⟨200, strBytes "\x7b\x7d"⟩ gOkBody _ (by decide)⟩

/-- C6: a `WebhookDelivery` reaches `dead_letter` exactly with
`attempts = 10` on every reachable row; a row in `delivered` or
`dead_letter` is never selected by a polling cycle; and every worker step
requires the row to be selected — hence terminal rows are never mutated and
never transition back to `pending` or `failed`. -/
theorem delivery_terminal_states :
    (∀ d : DeliveryRow, ReachableDelivery d → d.status = .deadLetter → d.attempts = 10) ∧
    (∀ (now : Nat) (active : Bool) (d : DeliveryRow),
        d.status = .delivered ∨ d.status = .deadLetter → selectable now active d = false) ∧
    (∀ (now : Nat) (active : Bool) (d d' : DeliveryRow),
        DStep now active d d' → selectable now active d = true) := by
  refine ⟨fun d hr hdl => (reachable_attempts_inv hr).2.2 hdl, ?_, ?_⟩
  · intro now active d h
    rcases h with h | h <;> simp [selectable, h]
  · intro now active d d' hstep
    cases hstep with
    | success h => exact h
    | failure _ h => exact h

/-- C6 witness for `delivery_terminal_states`: ten consecutive failures reach
`dead_letter` with `attempts = 10`; that row is no longer selectable; a
fresh pending row is selectable and steppable. -/
theorem delivery_terminal_states_witness :
    (failChain 10).attempts = 10 ∧
    selectable 0 true (failChain 10) = false ∧
    selectable 5000 true initDelivery = true := by
  have h0 : ReachableDelivery (failChain 0) := .init
  have s1 : DStep 5000 true (failChain 0) (failChain 1) :=
    .failure _ "HTTP 500" (by decide)
  have s2 : DStep 10000 true (failChain 1) (failChain 2) :=
    .failure _ "HTTP 500" (by decide)
  have s3 : DStep 15000 true (failChain 2) (failChain 3) :=
    .failure _ "HTTP 500" (by decide)
  have s4 : DStep 20000 true (failChain 3) (failChain 4) :=
    .failure _ "HTTP 500" (by decide)
  have s5 : DStep 25000 true (failChain 4) (failChain 5) :=
    .failure _ "HTTP 500" (by decide)
  have s6 : DStep 30000 true (failChain 5) (failChain 6) :=
    .failure _ "HTTP 500" (by decide)
  have s7 : DStep 35000 true (failChain 6) (failChain 7) :=
    .failure _ "HTTP 500" (by decide)
  have s8 : DStep 40000 true (failChain 7) (failChain 8) :=
    .failure _ "HTTP 500" (by decide)
  have s9 : DStep 45000 true (failChain 8) (failChain 9) :=
    .failure _ "HTTP 500" (by decide)
  have s10 : DStep 50000 true (failChain 9) (failChain 10) :=
    .failure _ "HTTP 500" (by decide)
  have h10 : ReachableDelivery (failChain 10) :=
    .step (.step (.step (.step (.step (.step (.step (.step (.step (.step h0
      s1) s2) s3) s4) s5) s6) s7) s8) s9) s10
  refine ⟨delivery_terminal_states.1 _ h10 (by decide),
          delivery_terminal_states.2.1 0 true _ (Or.inr (by decide)),
          delivery_terminal_states.2.2 5000 true initDelivery
            (applySuccess 5000 initDelivery) (.success _ (by decide))⟩

/-- C7: the notification-code mapping tables.  Every Apple code in the table
maps as specified and every other code passes through unchanged; every
Google code in the table maps as specified and every other code maps to
`UNKNOWN`; and every event emitted by `process_notification` carries exactly
the mapped kind of the notification's code. -/
theorem event_kind_mapping :
    (appleEventType "DID_RENEW" = "RENEWAL" ∧ appleEventType "EXPIRED" = "EXPIRATION" ∧
     appleEventType "DID_FAIL_TO_RENEW" = "BILLING_ISSUE_DETECTED" ∧
     appleEventType "REFUND" = "REFUND" ∧ appleEventType "SUBSCRIBED" = "INITIAL_PURCHASE" ∧
     appleEventType "INITIAL_BUY" = "INITIAL_PURCHASE" ∧
     appleEventType "DID_CHANGE_RENEWAL_STATUS" = "CANCELLATION") ∧
    (∀ c : String, c ∉ ["DID_RENEW", "EXPIRED", "DID_FAIL_TO_RENEW", "REFUND",
        "SUBSCRIBED", "INITIAL_BUY", "DID_CHANGE_RENEWAL_STATUS"] → appleEventType c = c) ∧
    (googleEventType 1 = "SUBSCRIPTION_RECOVERED" ∧ googleEventType 2 = "RENEWAL" ∧
     googleEventType 3 = "CANCELLATION" ∧ googleEventType 4 = "INITIAL_PURCHASE" ∧
     googleEventType 5 = "ACCOUNT_HOLD" ∧ googleEventType 6 = "GRACE_PERIOD" ∧
     googleEventType 7 = "RESTARTED" ∧ googleEventType 12 = "REFUND" ∧
     googleEventType 13 = "EXPIRATION") ∧
    (∀ n : Int, n ∉ ([1, 2, 3, 4, 5, 6, 7, 12, 13] : List Int) →
        googleEventType n = "UNKNOWN") ∧
    (∀ (d : Json) (evs : List TransactionEvent) (e : TransactionEvent),
        appleProcessDecoded d = .ok evs → e ∈ evs →
        e.event_type = appleEventType (((d.get "notificationType").asStr).getD "UNKNOWN")) ∧
    (∀ (resp : HttpResponse) (body : Json) (evs : List TransactionEvent)
        (e : TransactionEvent),
        googleProcessBody resp body = .ok evs → e ∈ evs →
        e.event_type = googleEventType
          ((((body.get "subscriptionNotification").get "notificationType").asInt).getD 0)) := by
  refine ⟨by decide, ?_, by decide, ?_, ?_, ?_⟩
  · intro c hc
    unfold appleEventType
    split <;> simp_all
  · intro n hn
    unfold googleEventType
    split <;> simp_all
  · intro d evs e h hmem
    unfold appleProcessDecoded at h
    split at h
    · split at h
      · split at h
        · simp at h
        · split at h
          · simp at h
          · simp only [Except.ok.injEq] at h
            subst h
            simp only [List.mem_singleton] at hmem
            subst hmem
            rfl
      · simp only [Except.ok.injEq] at h
        subst h
        simp at hmem
    · simp only [Except.ok.injEq] at h
      subst h
      simp at hmem
  · intro resp body evs e h hmem
    unfold googleProcessBody at h
    split at h
    · simp at h
    · split at h
      · simp at h
      · simp only [Except.ok.injEq] at h
        subst h
        simp only [List.mem_singleton] at hmem
        subst hmem
        rfl

/-- C7 witness for `event_kind_mapping`: concrete instances of each part
that carries a hypothesis. -/
theorem event_kind_mapping_witness :
    appleEventType "CONSUMPTION_REQUEST" = "CONSUMPTION_REQUEST" ∧
    googleEventType 20 = "UNKNOWN" ∧
    (⟨"RENEWAL", ⟨"", "", "", none, .active, .apple⟩⟩ : TransactionEvent).event_type
      = appleEventType (((exDecodedNotif.get "notificationType").asStr).getD "UNKNOWN") ∧
    (⟨"RENEWAL", ⟨"tok", "", "", none, .active, .google⟩⟩ : TransactionEvent).event_type
      = googleEventType
          ((((exGoogleNotifBody.get "subscriptionNotification").get
              "notificationType").asInt).getD 0) :=
  ⟨event_kind_mapping.2.1 _ (by decide),
   event_kind_mapping.2.2.2.1 20 (by decide),
   event_kind_mapping.2.2.2.2.1 exDecodedNotif _ _ (by decide)
     (List.mem_singleton.mpr rfl),
   event_kind_mapping.2.2.2.2.2 ⟨200, strBytes "\x7b\x7d"⟩ exGoogleNotifBody _ _
     (by decide) (List.mem_singleton.mpr rfl)⟩

/-- C8: the Google subscription-state mapping: the four listed vendor states
map to `Active`, `Expired`, `GracePeriod` and `BillingRetry`; every other
value, including the empty string a missing `subscriptionState` field reads
as, falls back to `Active`; and the status of every transaction built by
`verify_purchase` is exactly this mapping applied to the response's
`subscriptionState`. -/
theorem google_status_mapping :
    (googleSubscriptionStatus "SUBSCRIPTION_STATE_ACTIVE" = .active ∧
     googleSubscriptionStatus "SUBSCRIPTION_STATE_EXPIRED" = .expired ∧
     googleSubscriptionStatus "SUBSCRIPTION_STATE_GRACE_PERIOD" = .gracePeriod ∧
     googleSubscriptionStatus "SUBSCRIPTION_STATE_ON_HOLD" = .billingRetry) ∧
    (∀ s : String, s ∉ ["SUBSCRIPTION_STATE_ACTIVE", "SUBSCRIPTION_STATE_EXPIRED",
        "SUBSCRIPTION_STATE_GRACE_PERIOD", "SUBSCRIPTION_STATE_ON_HOLD"] →
        googleSubscriptionStatus s = .active) ∧
    (∀ (body : Json) (tok : String),
        (googleVerifyBody body tok).status
          = googleSubscriptionStatus (((body.get "subscriptionState").asStr).getD "")) ∧
    (∀ (body : Json) (tok : String), (body.get "subscriptionState").asStr = none →
        (googleVerifyBody body tok).status = .active) := by
  refine ⟨by decide, ?_, fun body tok => rfl, ?_⟩
  · intro s hs
    unfold googleSubscriptionStatus
    split <;> simp_all
  · intro body tok h
    show googleSubscriptionStatus (((body.get "subscriptionState").asStr).getD "") = .active
    rw [h]
    decide

/-- C8 witness for `google_status_mapping`: concrete instances of each part
that carries a hypothesis. -/
theorem google_status_mapping_witness :
    googleSubscriptionStatus "SUBSCRIPTION_STATE_PAUSED" = .active ∧
    (googleVerifyBody (Json.obj []) "t").status = .active :=
  ⟨google_status_mapping.2.1 _ (by decide),
   google_status_mapping.2.2.2 (Json.obj []) "t" rfl⟩

/-- C9: the signed-payload decode step is a total function (it returns ok or
an error, never panicking), and it succeeds exactly on tokens that split on
'.' into exactly three segments whose middle segment is valid unpadded
base64url and whose decoded bytes parse as JSON. -/
theorem signed_payload_decode_total (s : String) :
    ((∃ j, decodeSignedPayload s = .ok j) ∨ (∃ e, decodeSignedPayload s = .error e)) ∧
    ((∃ j, decodeSignedPayload s = .ok j) ↔
      ∃ h p sig, splitOnChar '.' s.data = [h, p, sig] ∧
        ∃ bs, b64urlDecode p = some bs ∧ ∃ j, jsonParse bs = some j) := by
  constructor
  · cases hd : decodeSignedPayload s with
    | error e => exact Or.inr ⟨e, rfl⟩
    | ok j => exact Or.inl ⟨j, rfl⟩
  · unfold decodeSignedPayload
    rcases hsp : splitOnChar '.' s.data with _ | ⟨a, _ | ⟨b, _ | ⟨c, _ | ⟨e, t⟩⟩⟩⟩
    · simp
    · simp
    · simp
    · rcases hb : b64urlDecode b with _ | bs
      · simp [hb]
      · rcases hj : jsonParse bs with _ | j
        · simp [hb, hj]
        · simp only [hb, hj]
          simp
          exact ⟨a, b, ⟨rfl, rfl⟩, bs, hb, j, hj⟩
    · simp

/-- C9 witness for `signed_payload_decode_total`: a concrete well-formed
three-segment token decodes successfully. -/
theorem signed_payload_decode_total_witness :
    ∃ j, decodeSignedPayload "h.e30.s" = .ok j :=
  (signed_payload_decode_total "h.e30.s").2.mpr
    ⟨"h".data, "e30".data, "s".data, rfl, [123, 125], rfl, Json.obj [], rfl⟩

/-- C10: the Apple adapter never reflects vendor payload contents in the
status field: every transaction returned by a successful `verify_purchase`
and every transaction inside the events of a successful
`process_notification` has status `Active`. -/
theorem apple_status_always_active :
    (∀ (resp : HttpResponse) (tx : VerifiedTransaction),
        appleVerifyPurchase resp = .ok tx → tx.status = .active) ∧
    (∀ (payload : List Nat) (evs : List TransactionEvent) (e : TransactionEvent),
        appleProcessNotification payload = .ok evs → e ∈ evs →
        e.transaction.status = .active) := by
  constructor
  · intro resp tx h
    unfold appleVerifyPurchase at h
    split at h
    · simp at h
    · split at h
      · simp at h
      · split at h
        · simp at h
        · split at h
          · simp at h
          · simp only [Except.ok.injEq] at h
            subst h
            rfl
  · intro payload evs e h hmem
    unfold appleProcessNotification at h
    split at h
    · simp at h
    · split at h
      · simp at h
      · split at h
        · simp at h
        · unfold appleProcessDecoded at h
          split at h
          · split at h
            · split at h
              · simp at h
              · split at h
                · simp at h
                · simp only [Except.ok.injEq] at h
                  subst h
                  simp only [List.mem_singleton] at hmem
                  subst hmem
                  rfl
            · simp only [Except.ok.injEq] at h
              subst h
              simp at hmem
          · simp only [Except.ok.injEq] at h
            subst h
            simp at hmem

set_option maxRecDepth 16000 in
/-- C10 witness for `apple_status_always_active`: concrete successful calls
of both capabilities. -/
theorem apple_status_always_active_witness :
    (⟨"", "", "", none, .active, .apple⟩ : VerifiedTransaction).status = .active ∧
    (⟨"RENEWAL", exRenewalTx⟩ : TransactionEvent).transaction.status = .active :=
  ⟨apple_status_always_active.1
     ⟨200, strBytes "\x7b\"signedTransactionInfo\":\"a.e30.b\"\x7d"⟩ _ (by decide),
   apple_status_always_active.2 renewalBody [⟨"RENEWAL", exRenewalTx⟩] _ (by decide)
     (List.mem_singleton.mpr rfl)⟩

end Opencat
